import Mathlib

/-!
Shallow embedding of the clock-App backend (my_backend/main.py, models.py).

The database is modelled as in-memory lists of rows with auto-increment
counters.  Each FastAPI handler becomes a function from its request data and
the database state to a pair of an `Except HTTPException response` (a raised
`HTTPException` becomes the `.error` case) and the database state after the
call.  Timestamps are abstract: `created_at` is a `Nat` supplied by the caller
as `now`, and `date.today()` is a `Nat` parameter `today`.
-/

/-- A `datetime` value as produced by `datetime.combine(date.today(), time_obj)`:
a day together with an hour and a minute. -/
structure DateTimeM where
  day : Nat
  hour : Nat
  minute : Nat
deriving DecidableEq, Repr

/-- Row of the `users` table (models.py, class User). Nullable columns are
`Option`s. -/
structure User where
  id : Nat
  role : String
  username : Option String
  password : Option String
  phone : Option String
  assigned_time : Option DateTimeM
deriving DecidableEq, Repr

/-- Row of the `leave_requests` table (models.py, class LeaveRequest). -/
structure LeaveRequest where
  id : Nat
  user_id : Nat
  username : String
  message : String
  status : String
  created_at : Nat
deriving DecidableEq, Repr

/-- The database state: the two tables plus the auto-increment counters for
their primary keys. -/
structure DB where
  users : List User
  leaves : List LeaveRequest
  nextUserId : Nat
  nextLeaveId : Nat
deriving DecidableEq, Repr

/-- A raised `fastapi.HTTPException`: status code and detail message. -/
structure HTTPException where
  status_code : Nat
  detail : String
deriving DecidableEq, Repr

/- ---------------- Pydantic Schemas ---------------- -/

structure AdminSignupRequest where
  username : String
  phone : String
  password : String
deriving DecidableEq, Repr

structure AdminLoginRequest where
  username : String
  password : String
deriving DecidableEq, Repr

structure UserLoginRequest where
  phone : String
deriving DecidableEq, Repr

structure UserSignupRequest where
  username : String
  phone : String
deriving DecidableEq, Repr

structure AssignTimeRequest where
  user_id : Nat
  time : String
deriving DecidableEq, Repr

structure NotificationRequest where
  user_id : Nat
  username : String
  message : String
deriving DecidableEq, Repr

/- ---------------- Response shapes ---------------- -/

structure SignupResponse where
  message : String
  userId : Nat
  username : Option String
  phone : Option String
  role : String
deriving DecidableEq, Repr

structure AdminLoginResponse where
  message : String
  role : String
  username : Option String
  userId : Nat
deriving DecidableEq, Repr

structure UserLoginResponse where
  message : String
  role : String
  username : Option String
  userId : Nat
  assigned_time : Option DateTimeM
deriving DecidableEq, Repr

structure MsgResponse where
  message : String
deriving DecidableEq, Repr

structure AssignedTimeResponse where
  assigned_time : Option DateTimeM
deriving DecidableEq, Repr

/- ---------------- Helpers ---------------- -/

/-- Render an optional string the way a Python f-string renders
`user.username` (None prints as "None"). -/
def optStr : Option String → String
  | none => "None"
  | some s => s

/-- Abstract rendering of a datetime for f-string messages; the exact format
is irrelevant to every claim. -/
def dtToString (d : DateTimeM) : String :=
  toString d.day ++ " " ++ toString d.hour ++ ":" ++ toString d.minute

instance {ε α : Type} [DecidableEq ε] [DecidableEq α] : DecidableEq (Except ε α) :=
  fun x y =>
    match x, y with
    | .ok a, .ok b =>
      if h : a = b then .isTrue (by rw [h]) else .isFalse (by intro hc; cases hc; exact h rfl)
    | .error a, .error b =>
      if h : a = b then .isTrue (by rw [h]) else .isFalse (by intro hc; cases hc; exact h rfl)
    | .ok _, .error _ => .isFalse (by intro hc; cases hc)
    | .error _, .ok _ => .isFalse (by intro hc; cases hc)

/-- Split a character list at every occurrence of the separator `c`
(the semantics of `str.split` on a one-character separator). -/
def splitChar (c : Char) : List Char → List (List Char)
  | [] => [[]]
  | x :: xs =>
    match splitChar c xs with
    | [] => if x == c then [[], []] else [[x]]
    | y :: ys => if x == c then [] :: y :: ys else (x :: y) :: ys

/-- Numeric value of a list of decimal digits. -/
def strToNat (cs : List Char) : Nat :=
  cs.foldl (fun n c => n * 10 + (c.toNat - 48)) 0

/-- One field of `strptime(s, "%H:%M")`: one or two decimal digits whose value
is at most `maxv` (23 for `%H`, 59 for `%M`). -/
def isTimeField (cs : List Char) (maxv : Nat) : Bool :=
  decide (1 ≤ cs.length) && decide (cs.length ≤ 2) &&
    cs.all Char.isDigit && decide (strToNat cs ≤ maxv)

/-- `datetime.strptime(s, "%H:%M").time()`: the string must be exactly
`H:M` with an hour of 0-23 and a minute of 0-59, nothing before or after. -/
def parseHHMM (s : String) : Option (Nat × Nat) :=
  match splitChar ':' s.data with
  | [h, m] =>
    if isTimeField h 23 && isTimeField m 59 then some (strToNat h, strToNat m)
    else none
  | _ => none

/-- Update the status of the first leave request whose id matches, as the
handler mutates the single row returned by `.first()`. -/
def setStatusFirst (leave_id : Nat) (s : String) : List LeaveRequest → List LeaveRequest
  | [] => []
  | l :: ls =>
    if l.id == leave_id then { l with status := s } :: ls
    else l :: setStatusFirst leave_id s ls

/-- Update the assigned_time of the first user whose id matches. -/
def setAssignedFirst (uid : Nat) (d : DateTimeM) : List User → List User
  | [] => []
  | u :: us =>
    if u.id == uid then { u with assigned_time := some d } :: us
    else u :: setAssignedFirst uid d us

/-- `order_by(created_at.desc()).first()`: an element with maximal
`created_at` (first such element of the list). -/
def latestLeave : List LeaveRequest → Option LeaveRequest
  | [] => none
  | l :: ls =>
    match latestLeave ls with
    | none => some l
    | some m => if m.created_at > l.created_at then some m else some l

/- ---------------- Handlers ---------------- -/

/-- POST /signup/admin. -/
def signup_admin (request : AdminSignupRequest) (db : DB) :
    Except HTTPException SignupResponse × DB :=
  match db.users.find? (fun u => u.phone == some request.phone) with
  | some _ => (.error ⟨400, "Phone already registered"⟩, db)
  | none =>
    let new_admin : User :=
      { id := db.nextUserId, role := "admin",
        username := some request.username,
        password := some request.password,
        phone := some request.phone,
        assigned_time := none }
    (.ok { message := "Admin registered successfully", userId := new_admin.id,
           username := new_admin.username, phone := new_admin.phone,
           role := new_admin.role },
     { db with users := db.users ++ [new_admin], nextUserId := db.nextUserId + 1 })

/-- POST /notify-admin.  `now` is `datetime.utcnow()` at insertion. -/
def notify_admin (request : NotificationRequest) (now : Nat) (db : DB) :
    Except HTTPException LeaveRequest × DB :=
  match db.users.find? (fun u => u.id == request.user_id) with
  | none => (.error ⟨404, "User not found"⟩, db)
  | some _ =>
    let leave_request : LeaveRequest :=
      { id := db.nextLeaveId, user_id := request.user_id,
        username := request.username, message := request.message,
        status := "pending", created_at := now }
    (.ok leave_request,
     { db with leaves := db.leaves ++ [leave_request],
               nextLeaveId := db.nextLeaveId + 1 })

/-- GET /leave-requests/pending. -/
def get_pending_leave_requests (db : DB) :
    Except HTTPException (List LeaveRequest) × DB :=
  (.ok (db.leaves.filter (fun l => l.status == "pending")), db)

/-- POST /leave-requests/{leave_id}/approve. -/
def approve_leave (leave_id : Nat) (db : DB) :
    Except HTTPException MsgResponse × DB :=
  match db.leaves.find? (fun l => l.id == leave_id) with
  | none => (.error ⟨404, "Leave request not found"⟩, db)
  | some l =>
    (.ok ⟨"Leave approved for " ++ l.username⟩,
     { db with leaves := setStatusFirst leave_id "approved" db.leaves })

/-- POST /leave-requests/{leave_id}/reject. -/
def reject_leave (leave_id : Nat) (db : DB) :
    Except HTTPException MsgResponse × DB :=
  match db.leaves.find? (fun l => l.id == leave_id) with
  | none => (.error ⟨404, "Leave request not found"⟩, db)
  | some l =>
    (.ok ⟨"Leave rejected for " ++ l.username⟩,
     { db with leaves := setStatusFirst leave_id "rejected" db.leaves })

/-- POST /login/admin. -/
def login_admin (request : AdminLoginRequest) (db : DB) :
    Except HTTPException AdminLoginResponse × DB :=
  match db.users.find? (fun u =>
      u.username == some request.username &&
      u.password == some request.password &&
      u.role == "admin") with
  | none => (.error ⟨401, "Invalid admin credentials"⟩, db)
  | some user =>
    (.ok { message := "Admin login successful", role := user.role,
           username := user.username, userId := user.id }, db)

/-- POST /login/user. -/
def login_user (request : UserLoginRequest) (db : DB) :
    Except HTTPException UserLoginResponse × DB :=
  match db.users.find? (fun u =>
      u.phone == some request.phone && u.role == "user") with
  | none => (.error ⟨401, "Invalid user credentials"⟩, db)
  | some user =>
    (.ok { message := "User login successful", role := user.role,
           username := user.username, userId := user.id,
           assigned_time := user.assigned_time }, db)

/-- POST /signup/user. -/
def signup_user (request : UserSignupRequest) (db : DB) :
    Except HTTPException SignupResponse × DB :=
  match db.users.find? (fun u => u.phone == some request.phone) with
  | some _ => (.error ⟨400, "Phone already registered"⟩, db)
  | none =>
    let new_user : User :=
      { id := db.nextUserId, role := "user",
        username := some request.username,
        password := none,
        phone := some request.phone,
        assigned_time := none }
    (.ok { message := "User registered successfully", userId := new_user.id,
           username := new_user.username, phone := new_user.phone,
           role := new_user.role },
     { db with users := db.users ++ [new_user], nextUserId := db.nextUserId + 1 })

/-- GET /users. -/
def get_users (db : DB) : Except HTTPException (List User) × DB :=
  (.ok (db.users.filter (fun u => u.role == "user")), db)

/-- GET /users/{user_id}/assigned_time. -/
def get_assigned_time (user_id : Nat) (db : DB) :
    Except HTTPException AssignedTimeResponse × DB :=
  match db.users.find? (fun u => u.id == user_id) with
  | none => (.error ⟨404, "User not found"⟩, db)
  | some user => (.ok ⟨user.assigned_time⟩, db)

/-- POST /assign-time.  `today` is `date.today()`. -/
def assign_time (request : AssignTimeRequest) (today : Nat) (db : DB) :
    Except HTTPException MsgResponse × DB :=
  match parseHHMM request.time with
  | none => (.error ⟨400, "Time must be in HH:MM format"⟩, db)
  | some (h, m) =>
    match db.users.find? (fun u => u.id == request.user_id) with
    | none => (.error ⟨404, "User not found"⟩, db)
    | some user =>
      let full_datetime : DateTimeM := ⟨today, h, m⟩
      (.ok ⟨"Assigned time " ++ dtToString full_datetime ++ " to user " ++
            optStr user.username⟩,
       { db with users := setAssignedFirst request.user_id full_datetime db.users })

/-- GET /leave-requests/status/{user_id}. -/
def get_latest_leave_request_by_user (user_id : Nat) (db : DB) :
    Except HTTPException LeaveRequest × DB :=
  match db.users.find? (fun u => u.id == user_id) with
  | none => (.error ⟨404, "User not found"⟩, db)
  | some _ =>
    match latestLeave (db.leaves.filter (fun l => l.user_id == user_id)) with
    | none => (.error ⟨404, "No leave requests found"⟩, db)
    | some l => (.ok l, db)

/- ---------------- Shared lemmas ---------------- -/

theorem find?_setStatusFirst (i : Nat) (s : String) (ls : List LeaveRequest) :
    (setStatusFirst i s ls).find? (fun l => l.id == i) =
      (ls.find? (fun l => l.id == i)).map (fun l => { l with status := s }) := by
  induction ls with
  | nil => rfl
  | cons l ls ih =>
    by_cases h : l.id = i
    · simp [setStatusFirst, List.find?, h]
    · have hb : (l.id == i) = false := by simp [h]
      simp [setStatusFirst, List.find?, hb, ih]

theorem find?_setAssignedFirst (i : Nat) (d : DateTimeM) (us : List User) :
    (setAssignedFirst i d us).find? (fun u => u.id == i) =
      (us.find? (fun u => u.id == i)).map (fun u => { u with assigned_time := some d }) := by
  induction us with
  | nil => rfl
  | cons u us ih =>
    by_cases h : u.id = i
    · simp [setAssignedFirst, List.find?, h]
    · have hb : (u.id == i) = false := by simp [h]
      simp [setAssignedFirst, List.find?, hb, ih]

theorem latestLeave_eq_none {ls : List LeaveRequest} :
    latestLeave ls = none ↔ ls = [] := by
  cases ls with
  | nil => simp [latestLeave]
  | cons l ls =>
    simp only [latestLeave]
    cases h : latestLeave ls with
    | none => simp
    | some m =>
      by_cases hlt : m.created_at > l.created_at <;> simp [hlt]

theorem latestLeave_mem {ls : List LeaveRequest} {m : LeaveRequest}
    (h : latestLeave ls = some m) : m ∈ ls := by
  induction ls with
  | nil => simp [latestLeave] at h
  | cons l ls ih =>
    simp only [latestLeave] at h
    cases h2 : latestLeave ls with
    | none => rw [h2] at h; simp at h; simp [h]
    | some m2 =>
      rw [h2] at h
      by_cases hlt : m2.created_at > l.created_at
      · simp [hlt] at h
        subst h
        exact List.mem_cons_of_mem _ (ih h2)
      · simp [hlt] at h
        simp [h]

theorem latestLeave_ge {ls : List LeaveRequest} {m : LeaveRequest}
    (h : latestLeave ls = some m) :
    ∀ l ∈ ls, l.created_at ≤ m.created_at := by
  induction ls generalizing m with
  | nil => simp [latestLeave] at h
  | cons l ls ih =>
    simp only [latestLeave] at h
    cases h2 : latestLeave ls with
    | none =>
      rw [h2] at h
      simp at h
      subst h
      have : ls = [] := latestLeave_eq_none.mp h2
      subst this
      simp
    | some m2 =>
      rw [h2] at h
      by_cases hlt : m2.created_at > l.created_at
      · simp [hlt] at h
        subst h
        intro x hx
        rcases List.mem_cons.mp hx with hx | hx
        · subst hx; exact Nat.le_of_lt hlt
        · exact ih h2 x hx
      · simp [hlt] at h
        subst h
        intro x hx
        rcases List.mem_cons.mp hx with hx | hx
        · subst hx; exact Nat.le_refl _
        · exact Nat.le_trans (ih h2 x hx) (Nat.le_of_not_lt hlt)

theorem find?_append_of_none {α : Type} {p : α → Bool} {l1 l2 : List α}
    (h : l1.find? p = none) : (l1 ++ l2).find? p = l2.find? p := by
  induction l1 with
  | nil => simp
  | cons a l1 ih =>
    cases hp : p a with
    | true => simp [List.find?, hp] at h
    | false =>
      simp only [List.find?, hp] at h
      simp [List.find?, hp, ih h]

/- ---------------- Example database states ---------------- -/

/-- A leave request that has already been approved. -/
def exLeaveApproved : LeaveRequest := ⟨1, 1, "alice", "msg", "approved", 0⟩

/-- A pending leave request. -/
def exLeavePending : LeaveRequest := ⟨1, 1, "alice", "msg", "pending", 0⟩

/-- A database holding one already-approved leave request. -/
def exDBApproved : DB := ⟨[], [exLeaveApproved], 1, 2⟩

/-- A database holding one pending leave request. -/
def exDBPending : DB := ⟨[], [exLeavePending], 1, 2⟩

/-- An empty database. -/
def emptyDB : DB := ⟨[], [], 1, 1⟩

/- ---------------- C1 ---------------- -/

/-- Claim C1 is false on the code: a LeaveRequest whose status has already
left "pending" (here: "approved") is changed again by a subsequent reject
call, which succeeds and overwrites the status with "rejected". -/
theorem c1_not_one_way_counterexample :
    exLeaveApproved.status = "approved" ∧
    (reject_leave 1 exDBApproved).1 = .ok ⟨"Leave rejected for alice"⟩ ∧
    (reject_leave 1 exDBApproved).2.leaves =
      [{ exLeaveApproved with status := "rejected" }] ∧
    ({ exLeaveApproved with status := "rejected" }).status ≠ exLeaveApproved.status := by
  decide

/-- Claim C1 amended: approve and reject carry no transition guard at all.
For any leave request found by id — whatever its current status, including
"approved" or "rejected" — approve sets the status to "approved" and reject
sets it to "rejected", unconditionally overwriting the previous value. -/
theorem c1_approve_reject_overwrite (i : Nat) (db : DB) (l0 : LeaveRequest)
    (h : db.leaves.find? (fun l => l.id == i) = some l0) :
    (approve_leave i db).2.leaves.find? (fun l => l.id == i) =
      some { l0 with status := "approved" } ∧
    (reject_leave i db).2.leaves.find? (fun l => l.id == i) =
      some { l0 with status := "rejected" } := by
  simp [approve_leave, reject_leave, h, find?_setStatusFirst]

/-- Witness for `c1_approve_reject_overwrite` at a concrete database whose
only leave request is already approved. -/
theorem c1_overwrite_witness :
    (exDBApproved.leaves.find? (fun l => l.id == 1) = some exLeaveApproved) ∧
    ((approve_leave 1 exDBApproved).2.leaves.find? (fun l => l.id == 1) =
        some { exLeaveApproved with status := "approved" } ∧
     (reject_leave 1 exDBApproved).2.leaves.find? (fun l => l.id == 1) =
        some { exLeaveApproved with status := "rejected" }) :=
  ⟨by decide, c1_approve_reject_overwrite 1 exDBApproved exLeaveApproved (by decide)⟩

/- ---------------- C2 ---------------- -/

/-- Claim C2: for any leave id present in the store, approve followed by
reject on that id both succeed, and the second call overwrites the status,
leaving the record "rejected"; there is no transition guard. -/
theorem c2_approve_then_reject (i : Nat) (db : DB)
    (h : (db.leaves.find? (fun l => l.id == i)).isSome = true) :
    ∃ a b l,
      (approve_leave i db).1 = .ok a ∧
      (reject_leave i (approve_leave i db).2).1 = .ok b ∧
      (reject_leave i (approve_leave i db).2).2.leaves.find? (fun x => x.id == i) =
        some l ∧
      l.status = "rejected" := by
  obtain ⟨l0, hl0⟩ := Option.isSome_iff_exists.mp h
  have h1 : (approve_leave i db).1 = .ok ⟨"Leave approved for " ++ l0.username⟩ := by
    simp [approve_leave, hl0]
  have hdb1 : (approve_leave i db).2.leaves = setStatusFirst i "approved" db.leaves := by
    simp [approve_leave, hl0]
  have hfind1 : (approve_leave i db).2.leaves.find? (fun l => l.id == i) =
      some { l0 with status := "approved" } := by
    rw [hdb1, find?_setStatusFirst, hl0]
    rfl
  refine ⟨⟨"Leave approved for " ++ l0.username⟩,
          ⟨"Leave rejected for " ++ l0.username⟩,
          { l0 with status := "rejected" }, h1, ?_, ?_, rfl⟩
  · simp [reject_leave, hfind1]
  · simp [reject_leave, hfind1, find?_setStatusFirst]

/-- Witness for `c2_approve_then_reject` at a concrete database with one
pending leave request. -/
theorem c2_witness :
    ((exDBPending.leaves.find? (fun l => l.id == 1)).isSome = true) ∧
    (∃ a b l,
      (approve_leave 1 exDBPending).1 = .ok a ∧
      (reject_leave 1 (approve_leave 1 exDBPending).2).1 = .ok b ∧
      (reject_leave 1 (approve_leave 1 exDBPending).2).2.leaves.find?
          (fun x => x.id == 1) = some l ∧
      l.status = "rejected") :=
  ⟨by decide, c2_approve_then_reject 1 exDBPending (by decide)⟩

/- ---------------- C3 ---------------- -/

/-- The three error kinds named by the spec, classified by status code:
NotFound surfaces as a 404-equivalent, Conflict and Validation as
400-equivalents. -/
def isSpecErrorKind (e : HTTPException) : Prop :=
  e.status_code = 404 ∨ e.status_code = 400

/-- The full set of error responses the handlers can produce: the spec's
three kinds plus the invalid-credentials (401) errors of the login routes. -/
def errKindOK (e : HTTPException) : Prop :=
  e.status_code = 404 ∨
  (e.status_code = 400 ∧
    (e.detail = "Phone already registered" ∨ e.detail = "Time must be in HH:MM format")) ∨
  (e.status_code = 401 ∧
    (e.detail = "Invalid admin credentials" ∨ e.detail = "Invalid user credentials"))

/-- A handler result either succeeds or raises an error in `errKindOK`. -/
def respErrOK {α : Type} (r : Except HTTPException α × DB) : Prop :=
  match r.1 with
  | .error e => errKindOK e
  | .ok _ => True

/-- Claim C3 is false on the code: a failed admin login returns a 401
invalid-credentials error, which is neither a 404-equivalent (NotFound) nor
a 400-equivalent (Conflict or Validation), so not every error response is
one of the three spec kinds. -/
theorem c3_error_kinds_counterexample :
    (login_admin ⟨"admin", "pw"⟩ emptyDB).1 =
      .error ⟨401, "Invalid admin credentials"⟩ ∧
    ¬ isSpecErrorKind ⟨401, "Invalid admin credentials"⟩ := by
  constructor
  · decide
  · simp [isSpecErrorKind]

/-- Claim C3 amended: across all endpoints, every error response is one of
four kinds — NotFound (404), Conflict (400, duplicate phone), Validation
(400, malformed time string), or invalid-credentials (401, from the two
login routes); every other request path succeeds. -/
theorem c3_error_kinds_amended :
    (∀ rq db, respErrOK (signup_admin rq db)) ∧
    (∀ rq now db, respErrOK (notify_admin rq now db)) ∧
    (∀ db, respErrOK (get_pending_leave_requests db)) ∧
    (∀ i db, respErrOK (approve_leave i db)) ∧
    (∀ i db, respErrOK (reject_leave i db)) ∧
    (∀ rq db, respErrOK (login_admin rq db)) ∧
    (∀ rq db, respErrOK (login_user rq db)) ∧
    (∀ rq db, respErrOK (signup_user rq db)) ∧
    (∀ db, respErrOK (get_users db)) ∧
    (∀ i db, respErrOK (get_assigned_time i db)) ∧
    (∀ rq today db, respErrOK (assign_time rq today db)) ∧
    (∀ i db, respErrOK (get_latest_leave_request_by_user i db)) := by
  refine ⟨?_, ?_, ?_, ?_, ?_, ?_, ?_, ?_, ?_, ?_, ?_, ?_⟩
  · intro rq db
    unfold signup_admin
    cases db.users.find? (fun u => u.phone == some rq.phone) <;>
      simp [respErrOK, errKindOK]
  · intro rq now db
    unfold notify_admin
    cases db.users.find? (fun u => u.id == rq.user_id) <;>
      simp [respErrOK, errKindOK]
  · intro db
    simp [get_pending_leave_requests, respErrOK]
  · intro i db
    unfold approve_leave
    cases db.leaves.find? (fun l => l.id == i) <;> simp [respErrOK, errKindOK]
  · intro i db
    unfold reject_leave
    cases db.leaves.find? (fun l => l.id == i) <;> simp [respErrOK, errKindOK]
  · intro rq db
    unfold login_admin
    cases db.users.find? (fun u =>
        u.username == some rq.username && u.password == some rq.password &&
        u.role == "admin") <;> simp [respErrOK, errKindOK]
  · intro rq db
    unfold login_user
    cases db.users.find? (fun u => u.phone == some rq.phone && u.role == "user") <;>
      simp [respErrOK, errKindOK]
  · intro rq db
    unfold signup_user
    cases db.users.find? (fun u => u.phone == some rq.phone) <;>
      simp [respErrOK, errKindOK]
  · intro db
    simp [get_users, respErrOK]
  · intro i db
    unfold get_assigned_time
    cases db.users.find? (fun u => u.id == i) <;> simp [respErrOK, errKindOK]
  · intro rq today db
    unfold assign_time
    cases parseHHMM rq.time with
    | none => simp [respErrOK, errKindOK]
    | some hm =>
      cases hm with
      | mk h m =>
        cases db.users.find? (fun u => u.id == rq.user_id) <;>
          simp [respErrOK, errKindOK]
  · intro i db
    unfold get_latest_leave_request_by_user
    cases db.users.find? (fun u => u.id == i) with
    | none => simp [respErrOK, errKindOK]
    | some _ =>
      cases latestLeave (db.leaves.filter (fun l => l.user_id == i)) <;>
        simp [respErrOK, errKindOK]

/- ---------------- C4 ---------------- -/

/-- A user row named alice, and a database holding only that user. -/
def exUserAlice : User := ⟨1, "user", some "alice", none, some "111", none⟩

/-- A database whose only user is `exUserAlice`. -/
def exDBAlice : DB := ⟨[exUserAlice], [], 2, 1⟩

/-- Claim C4 is false on the code: notify-admin copies the username from the
request body, not from the referenced User row.  With user 1 named "alice",
a request carrying username "bob" succeeds and creates a LeaveRequest whose
username "bob" differs from the user's username. -/
theorem c4_username_counterexample :
    (exDBAlice.users.find? (fun u => u.id == 1) = some exUserAlice) ∧
    (notify_admin ⟨1, "bob", "hi"⟩ 0 exDBAlice).1 =
      .ok ⟨1, 1, "bob", "hi", "pending", 0⟩ ∧
    some "bob" ≠ exUserAlice.username := by
  decide

/-- Claim C4 amended: if no User with the given user_id exists, notify-admin
fails with NotFound and leaves the database unchanged; otherwise it inserts
a LeaveRequest with status "pending" whose username and message are taken
from the request body (the username is not copied from the User row), and
returns the created record. -/
theorem c4_notify_admin_spec (rq : NotificationRequest) (now : Nat) (db : DB) :
    (db.users.find? (fun u => u.id == rq.user_id) = none →
      (notify_admin rq now db).1 = .error ⟨404, "User not found"⟩ ∧
      (notify_admin rq now db).2 = db) ∧
    ((db.users.find? (fun u => u.id == rq.user_id)).isSome = true →
      (notify_admin rq now db).1 =
        .ok ⟨db.nextLeaveId, rq.user_id, rq.username, rq.message, "pending", now⟩ ∧
      (notify_admin rq now db).2.leaves =
        db.leaves ++ [⟨db.nextLeaveId, rq.user_id, rq.username, rq.message, "pending", now⟩]) := by
  constructor
  · intro h
    simp [notify_admin, h]
  · intro h
    obtain ⟨u, hu⟩ := Option.isSome_iff_exists.mp h
    simp [notify_admin, hu]

/-- Witness for `c4_notify_admin_spec`: the insertion branch at an existing
user and the NotFound branch at an absent one. -/
theorem c4_witness :
    ((notify_admin ⟨1, "bob", "hi"⟩ 0 exDBAlice).1 =
       .ok ⟨1, 1, "bob", "hi", "pending", 0⟩) ∧
    ((notify_admin ⟨5, "bob", "hi"⟩ 0 exDBAlice).1 = .error ⟨404, "User not found"⟩) :=
  ⟨((c4_notify_admin_spec ⟨1, "bob", "hi"⟩ 0 exDBAlice).2 (by decide)).1,
   ((c4_notify_admin_spec ⟨5, "bob", "hi"⟩ 0 exDBAlice).1 (by decide)).1⟩

/- ---------------- C5 ---------------- -/

/-- Claim C5: leave-requests/status/{user_id} fails with NotFound if the
user is absent, fails with NotFound if the user has no leave requests, and
otherwise returns a leave request of that user whose created_at is maximal
among the user's requests. -/
theorem c5_latest_leave_request (uid : Nat) (db : DB) :
    (db.users.find? (fun u => u.id == uid) = none →
      (get_latest_leave_request_by_user uid db).1 = .error ⟨404, "User not found"⟩) ∧
    ((db.users.find? (fun u => u.id == uid)).isSome = true →
      (db.leaves.filter (fun l => l.user_id == uid) = [] →
        (get_latest_leave_request_by_user uid db).1 =
          .error ⟨404, "No leave requests found"⟩) ∧
      (db.leaves.filter (fun l => l.user_id == uid) ≠ [] →
        ∃ L, (get_latest_leave_request_by_user uid db).1 = .ok L) ∧
      (∀ L, (get_latest_leave_request_by_user uid db).1 = .ok L →
        L ∈ db.leaves.filter (fun l => l.user_id == uid) ∧
        ∀ l ∈ db.leaves.filter (fun l => l.user_id == uid),
          l.created_at ≤ L.created_at)) := by
  constructor
  · intro h
    simp [get_latest_leave_request_by_user, h]
  · intro h
    obtain ⟨u, hu⟩ := Option.isSome_iff_exists.mp h
    refine ⟨?_, ?_, ?_⟩
    · intro hfil
      simp [get_latest_leave_request_by_user, hu, hfil, latestLeave]
    · intro hfil
      cases hll : latestLeave (db.leaves.filter (fun l => l.user_id == uid)) with
      | none => exact absurd (latestLeave_eq_none.mp hll) hfil
      | some m =>
        exact ⟨m, by simp [get_latest_leave_request_by_user, hu, hll]⟩
    · intro L hL
      cases hll : latestLeave (db.leaves.filter (fun l => l.user_id == uid)) with
      | none => simp [get_latest_leave_request_by_user, hu, hll] at hL
      | some m =>
        simp [get_latest_leave_request_by_user, hu, hll] at hL
        subst hL
        exact ⟨latestLeave_mem hll, latestLeave_ge hll⟩

/-- An older and a newer leave request of user 1. -/
def exLeaveOld : LeaveRequest := ⟨1, 1, "alice", "first", "pending", 5⟩

/-- The newer of the two example leave requests. -/
def exLeaveNew : LeaveRequest := ⟨2, 1, "alice", "second", "pending", 9⟩

/-- A database with user alice and her two leave requests. -/
def exDBLeaves : DB := ⟨[exUserAlice], [exLeaveOld, exLeaveNew], 2, 3⟩

/-- Witness for `c5_latest_leave_request`: with two requests for user 1, the
endpoint succeeds, the returned request has the maximal created_at, and an
absent user id yields NotFound. -/
theorem c5_witness :
    (∃ L, (get_latest_leave_request_by_user 1 exDBLeaves).1 = .ok L) ∧
    (exLeaveNew ∈ exDBLeaves.leaves.filter (fun l => l.user_id == 1) ∧
     ∀ l ∈ exDBLeaves.leaves.filter (fun l => l.user_id == 1),
       l.created_at ≤ exLeaveNew.created_at) ∧
    ((get_latest_leave_request_by_user 3 exDBLeaves).1 =
      .error ⟨404, "User not found"⟩) :=
  ⟨((c5_latest_leave_request 1 exDBLeaves).2 (by decide)).2.1 (by decide),
   ((c5_latest_leave_request 1 exDBLeaves).2 (by decide)).2.2 exLeaveNew (by decide),
   (c5_latest_leave_request 3 exDBLeaves).1 (by decide)⟩

/- ---------------- C6 ---------------- -/

/-- Claim C6: assign-time fails with the Validation error when the time
string does not parse as "HH:MM", leaving the database unchanged; for a
parsable time and an existing user it succeeds and sets that user's
assigned_time to the parsed hour and minute combined with today's date. -/
theorem c6_assign_time_spec (rq : AssignTimeRequest) (today : Nat) (db : DB) :
    (parseHHMM rq.time = none →
      (assign_time rq today db).1 = .error ⟨400, "Time must be in HH:MM format"⟩ ∧
      (assign_time rq today db).2 = db) ∧
    (∀ h m u0, parseHHMM rq.time = some (h, m) →
      db.users.find? (fun x => x.id == rq.user_id) = some u0 →
      (∃ r, (assign_time rq today db).1 = .ok r) ∧
      (assign_time rq today db).2.users.find? (fun x => x.id == rq.user_id) =
        some { u0 with assigned_time := some ⟨today, h, m⟩ }) := by
  constructor
  · intro h
    simp [assign_time, h]
  · intro h m u0 hp hu
    constructor
    · exact ⟨⟨"Assigned time " ++ dtToString ⟨today, h, m⟩ ++ " to user " ++
              optStr u0.username⟩, by simp [assign_time, hp, hu]⟩
    · simp [assign_time, hp, hu, find?_setAssignedFirst]

/-- Witness for `c6_assign_time_spec`: "25:61" fails with the Validation
error and no state change, while "14:30" on user 1 sets the assigned_time
to 14:30 of today. -/
theorem c6_witness :
    ((assign_time ⟨1, "25:61"⟩ 7 exDBAlice).1 =
       .error ⟨400, "Time must be in HH:MM format"⟩ ∧
     (assign_time ⟨1, "25:61"⟩ 7 exDBAlice).2 = exDBAlice) ∧
    ((∃ r, (assign_time ⟨1, "14:30"⟩ 7 exDBAlice).1 = .ok r) ∧
     (assign_time ⟨1, "14:30"⟩ 7 exDBAlice).2.users.find? (fun x => x.id == 1) =
       some { exUserAlice with assigned_time := some ⟨7, 14, 30⟩ }) :=
  ⟨(c6_assign_time_spec ⟨1, "25:61"⟩ 7 exDBAlice).1 (by decide),
   (c6_assign_time_spec ⟨1, "14:30"⟩ 7 exDBAlice).2 14 30 exUserAlice
     (by decide) (by decide)⟩

/- ---------------- C7 ---------------- -/

theorem signup_admin_dup (rq : AdminSignupRequest) (db : DB) (u0 : User)
    (h : db.users.find? (fun u => u.phone == some rq.phone) = some u0) :
    (signup_admin rq db).1 = .error ⟨400, "Phone already registered"⟩ ∧
    (signup_admin rq db).2 = db := by
  simp [signup_admin, h]

theorem signup_admin_fresh (rq : AdminSignupRequest) (db : DB)
    (h : db.users.find? (fun u => u.phone == some rq.phone) = none) :
    (signup_admin rq db).1 =
      .ok ⟨"Admin registered successfully", db.nextUserId,
           some rq.username, some rq.phone, "admin"⟩ ∧
    (signup_admin rq db).2.users =
      db.users ++ [⟨db.nextUserId, "admin", some rq.username, some rq.password,
                    some rq.phone, none⟩] := by
  simp [signup_admin, h]

theorem signup_user_dup (rq : UserSignupRequest) (db : DB) (u0 : User)
    (h : db.users.find? (fun u => u.phone == some rq.phone) = some u0) :
    (signup_user rq db).1 = .error ⟨400, "Phone already registered"⟩ ∧
    (signup_user rq db).2 = db := by
  simp [signup_user, h]

theorem signup_user_fresh (rq : UserSignupRequest) (db : DB)
    (h : db.users.find? (fun u => u.phone == some rq.phone) = none) :
    (signup_user rq db).1 =
      .ok ⟨"User registered successfully", db.nextUserId,
           some rq.username, some rq.phone, "user"⟩ ∧
    (signup_user rq db).2.users =
      db.users ++ [⟨db.nextUserId, "user", some rq.username, none,
                    some rq.phone, none⟩] := by
  simp [signup_user, h]

/-- Claim C7: each signup endpoint fails with the Conflict error and inserts
nothing when a User with the requested phone already exists, and otherwise
inserts a new User with the endpoint's role; in particular, after a
successful user signup, a second signup (user or admin) with the same phone
fails with the Conflict error. -/
theorem c7_signup_phone_conflict (rqA : AdminSignupRequest)
    (rqU : UserSignupRequest) (db : DB) :
    ((db.users.find? (fun u => u.phone == some rqA.phone)).isSome = true →
      (signup_admin rqA db).1 = .error ⟨400, "Phone already registered"⟩ ∧
      (signup_admin rqA db).2 = db) ∧
    (db.users.find? (fun u => u.phone == some rqA.phone) = none →
      (∃ r, (signup_admin rqA db).1 = .ok r) ∧
      (signup_admin rqA db).2.users =
        db.users ++ [⟨db.nextUserId, "admin", some rqA.username,
                      some rqA.password, some rqA.phone, none⟩]) ∧
    ((db.users.find? (fun u => u.phone == some rqU.phone)).isSome = true →
      (signup_user rqU db).1 = .error ⟨400, "Phone already registered"⟩ ∧
      (signup_user rqU db).2 = db) ∧
    (db.users.find? (fun u => u.phone == some rqU.phone) = none →
      (∃ r, (signup_user rqU db).1 = .ok r) ∧
      (signup_user rqU db).2.users =
        db.users ++ [⟨db.nextUserId, "user", some rqU.username, none,
                      some rqU.phone, none⟩]) ∧
    (db.users.find? (fun u => u.phone == some rqU.phone) = none →
      ∀ rq2 : UserSignupRequest, rq2.phone = rqU.phone →
        (signup_user rq2 (signup_user rqU db).2).1 =
          .error ⟨400, "Phone already registered"⟩) ∧
    (db.users.find? (fun u => u.phone == some rqU.phone) = none →
      ∀ rq3 : AdminSignupRequest, rq3.phone = rqU.phone →
        (signup_admin rq3 (signup_user rqU db).2).1 =
          .error ⟨400, "Phone already registered"⟩) := by
  have hseq : ∀ rqU : UserSignupRequest,
      db.users.find? (fun u => u.phone == some rqU.phone) = none →
      ∀ ph, ph = rqU.phone →
      (signup_user rqU db).2.users.find? (fun u => u.phone == some ph) =
        some ⟨db.nextUserId, "user", some rqU.username, none, some rqU.phone, none⟩ := by
    intro rqU h ph hph
    have hdb2 := (signup_user_fresh rqU db h).2
    rw [hdb2, hph, find?_append_of_none h]
    simp [List.find?]
  refine ⟨?_, ?_, ?_, ?_, ?_, ?_⟩
  · intro h
    obtain ⟨u0, hu0⟩ := Option.isSome_iff_exists.mp h
    exact signup_admin_dup rqA db u0 hu0
  · intro h
    exact ⟨⟨_, (signup_admin_fresh rqA db h).1⟩, (signup_admin_fresh rqA db h).2⟩
  · intro h
    obtain ⟨u0, hu0⟩ := Option.isSome_iff_exists.mp h
    exact signup_user_dup rqU db u0 hu0
  · intro h
    exact ⟨⟨_, (signup_user_fresh rqU db h).1⟩, (signup_user_fresh rqU db h).2⟩
  · intro h rq2 hph
    exact (signup_user_dup rq2 _ _ (hseq rqU h rq2.phone hph)).1
  · intro h rq3 hph
    exact (signup_admin_dup rq3 _ _ (hseq rqU h rq3.phone hph)).1

/-- Witness for `c7_signup_phone_conflict`: on the empty database, signing
up a user with phone "111" succeeds, and a second user signup with the same
phone fails with the Conflict error. -/
theorem c7_witness :
    ((∃ r, (signup_user ⟨"alice", "111"⟩ emptyDB).1 = .ok r) ∧
     (signup_user ⟨"alice", "111"⟩ emptyDB).2.users =
       emptyDB.users ++ [⟨1, "user", some "alice", none, some "111", none⟩]) ∧
    ((signup_user ⟨"bob", "111"⟩ (signup_user ⟨"alice", "111"⟩ emptyDB).2).1 =
      .error ⟨400, "Phone already registered"⟩) :=
  ⟨(c7_signup_phone_conflict ⟨"x", "9", "p"⟩ ⟨"alice", "111"⟩ emptyDB).2.2.2.1
     (by decide),
   (c7_signup_phone_conflict ⟨"x", "9", "p"⟩ ⟨"alice", "111"⟩ emptyDB).2.2.2.2.1
     (by decide) ⟨"bob", "111"⟩ rfl⟩

/- ---------------- C8 ---------------- -/

/-- Claim C8: login/admin succeeds iff some User matches the given username,
password and role "admin" exactly (plain string comparison); otherwise it
fails with the 401 invalid-credentials error — never with a 404 NotFound. -/
theorem c8_login_admin_spec (rq : AdminLoginRequest) (db : DB) :
    ((∃ u ∈ db.users,
        (u.username == some rq.username && u.password == some rq.password &&
         u.role == "admin") = true) ↔
      ∃ r, (login_admin rq db).1 = .ok r) ∧
    ((¬ ∃ u ∈ db.users,
        (u.username == some rq.username && u.password == some rq.password &&
         u.role == "admin") = true) →
      (login_admin rq db).1 = .error ⟨401, "Invalid admin credentials"⟩) ∧
    (∀ e, (login_admin rq db).1 = .error e →
      e.status_code = 401 ∧ e.status_code ≠ 404) := by
  cases hf : db.users.find? (fun u =>
      u.username == some rq.username && u.password == some rq.password &&
      u.role == "admin") with
  | none =>
    have hno : ¬ ∃ u ∈ db.users,
        (u.username == some rq.username && u.password == some rq.password &&
         u.role == "admin") = true := by
      rw [List.find?_eq_none] at hf
      rintro ⟨u, hu, hp⟩
      exact hf u hu hp
    refine ⟨⟨fun h => absurd h hno, ?_⟩, fun _ => by simp [login_admin, hf], ?_⟩
    · rintro ⟨r, hr⟩
      simp [login_admin, hf] at hr
    · intro e he
      simp [login_admin, hf] at he
      subst he
      simp
  | some u =>
    have hmem : u ∈ db.users := List.mem_of_find?_eq_some hf
    have hp := List.find?_some hf
    refine ⟨⟨fun _ => ?_, fun _ => ⟨u, hmem, hp⟩⟩, fun hno => ?_, ?_⟩
    · exact ⟨⟨"Admin login successful", u.role, u.username, u.id⟩,
        by simp [login_admin, hf]⟩
    · exact absurd ⟨u, hmem, hp⟩ hno
    · intro e he
      simp [login_admin, hf] at he

/-- An admin user for the login examples. -/
def exAdminRoot : User := ⟨1, "admin", some "root", some "pw", some "0", none⟩

/-- A database holding only the admin `exAdminRoot`. -/
def exDBAdmin : DB := ⟨[exAdminRoot], [], 2, 1⟩

/-- Witness for `c8_login_admin_spec`: with the matching credentials the
login succeeds, and with the correct username but a wrong password it fails
with the 401 invalid-credentials error. -/
theorem c8_witness :
    (∃ r, (login_admin ⟨"root", "pw"⟩ exDBAdmin).1 = .ok r) ∧
    ((login_admin ⟨"root", "wrong"⟩ exDBAdmin).1 =
      .error ⟨401, "Invalid admin credentials"⟩) :=
  ⟨(c8_login_admin_spec ⟨"root", "pw"⟩ exDBAdmin).1.mp
     ⟨exAdminRoot, by decide, by decide⟩,
   (c8_login_admin_spec ⟨"root", "wrong"⟩ exDBAdmin).2.1 (by decide)⟩

/- ---------------- C9 ---------------- -/

/-- Claim C9: the users endpoint returns exactly the User rows whose role is
"user", and never a row with role "admin". -/
theorem c9_users_endpoint (db : DB) (l : List User)
    (hl : (get_users db).1 = .ok l) :
    (∀ u, u ∈ l ↔ u ∈ db.users ∧ u.role = "user") ∧
    (∀ u ∈ l, u.role ≠ "admin") := by
  have hfil : db.users.filter (fun u => u.role == "user") = l := by
    simpa [get_users] using hl
  subst hfil
  constructor
  · intro u
    simp [List.mem_filter]
  · intro u hu
    rw [List.mem_filter] at hu
    have hrole : u.role = "user" := by simpa using hu.2
    rw [hrole]
    decide

/-- A database holding one admin and one ordinary user. -/
def exDBBoth : DB := ⟨[exAdminRoot, exUserAlice], [], 3, 1⟩

/-- Witness for `c9_users_endpoint` on a database with one admin and one
user: the endpoint returns exactly the user row. -/
theorem c9_witness :
    (∀ u, u ∈ [exUserAlice] ↔ u ∈ exDBBoth.users ∧ u.role = "user") ∧
    (∀ u ∈ [exUserAlice], u.role ≠ "admin") :=
  c9_users_endpoint exDBBoth [exUserAlice] (by decide)

/- ---------------- C10 ---------------- -/

/-- A handler result whose error case leaves the database exactly as it was
before the call. -/
def errPreserves {α : Type} (db : DB) (r : Except HTTPException α × DB) : Prop :=
  match r.1 with
  | .error _ => r.2 = db
  | .ok _ => True

/-- Claim C10: on every endpoint, any error outcome (NotFound, Conflict,
Validation or invalid-credentials) leaves the database state unchanged —
every check, including assign-time's time-string parse, happens before any
mutation. -/
theorem c10_atomic_on_error :
    (∀ rq db, errPreserves db (signup_admin rq db)) ∧
    (∀ rq now db, errPreserves db (notify_admin rq now db)) ∧
    (∀ db, errPreserves db (get_pending_leave_requests db)) ∧
    (∀ i db, errPreserves db (approve_leave i db)) ∧
    (∀ i db, errPreserves db (reject_leave i db)) ∧
    (∀ rq db, errPreserves db (login_admin rq db)) ∧
    (∀ rq db, errPreserves db (login_user rq db)) ∧
    (∀ rq db, errPreserves db (signup_user rq db)) ∧
    (∀ db, errPreserves db (get_users db)) ∧
    (∀ i db, errPreserves db (get_assigned_time i db)) ∧
    (∀ rq today db, errPreserves db (assign_time rq today db)) ∧
    (∀ i db, errPreserves db (get_latest_leave_request_by_user i db)) := by
  refine ⟨?_, ?_, ?_, ?_, ?_, ?_, ?_, ?_, ?_, ?_, ?_, ?_⟩
  · intro rq db
    unfold signup_admin
    cases db.users.find? (fun u => u.phone == some rq.phone) <;> simp [errPreserves]
  · intro rq now db
    unfold notify_admin
    cases db.users.find? (fun u => u.id == rq.user_id) <;> simp [errPreserves]
  · intro db
    simp [get_pending_leave_requests, errPreserves]
  · intro i db
    unfold approve_leave
    cases db.leaves.find? (fun l => l.id == i) <;> simp [errPreserves]
  · intro i db
    unfold reject_leave
    cases db.leaves.find? (fun l => l.id == i) <;> simp [errPreserves]
  · intro rq db
    unfold login_admin
    cases db.users.find? (fun u =>
        u.username == some rq.username && u.password == some rq.password &&
        u.role == "admin") <;> simp [errPreserves]
  · intro rq db
    unfold login_user
    cases db.users.find? (fun u => u.phone == some rq.phone && u.role == "user") <;>
      simp [errPreserves]
  · intro rq db
    unfold signup_user
    cases db.users.find? (fun u => u.phone == some rq.phone) <;> simp [errPreserves]
  · intro db
    simp [get_users, errPreserves]
  · intro i db
    unfold get_assigned_time
    cases db.users.find? (fun u => u.id == i) <;> simp [errPreserves]
  · intro rq today db
    unfold assign_time
    cases parseHHMM rq.time with
    | none => simp [errPreserves]
    | some hm =>
      cases hm with
      | mk h m =>
        cases db.users.find? (fun u => u.id == rq.user_id) <;> simp [errPreserves]
  · intro i db
    unfold get_latest_leave_request_by_user
    cases db.users.find? (fun u => u.id == i) with
    | none => simp [errPreserves]
    | some _ =>
      cases latestLeave (db.leaves.filter (fun l => l.user_id == i)) <;>
        simp [errPreserves]
